import Mathlib

/-!
Verification development for the poll-and-reconcile sync controller of the
mcphub dashboard (the `ServerProvider` React context) and its session-storage
number helpers.

The embedding is shallow: each relevant piece of the TypeScript source is
translated into an executable Lean definition.

- The component's mutable pieces (`useState` values, `useRef` cells, the
  armed interval timer) are gathered into one explicit record `SyncState`.
- Asynchronous fetch completions become pure step functions that take the
  already-settled results of the two `apiGet` calls (`Except JSErr Resp`)
  plus the ambient inputs (`navigator.onLine`, `Date.now()`), and return the
  updated state. `Promise.all` is modelled by `promiseAll`, which yields the
  pair only when both promises resolved and otherwise the first rejection.
- Effects that only matter through the fact that a fetch was issued
  immediately (the `immediate` option of `startNormalPolling`, the immediate
  `fetchInitialData()` call in the polling `useEffect`) are recorded as
  boolean outputs of the corresponding step functions.
-/

namespace MCPHub

/-- Resources (MCP servers) are identified abstractly; only their identity
matters to the controller, never their contents. -/
abbrev Server := String

/-- Pagination info object returned inside the paginated envelope
(`interface PaginationInfo`, source lines 22-29). -/
structure PaginationInfo where
  page : Nat
  limit : Nat
  total : Nat
  totalPages : Nat
  hasNextPage : Bool
  hasPrevPage : Bool
deriving DecidableEq

/-- The shape of a settled `apiGet` response value, as far as the source's
shape-sniffing distinguishes it:
`envelope success dataArr pagination` is an object with a `success` flag, a
`data` field that is an array (`some`) or not (`none`), and an optional
`pagination` object; `bare` is a response that is itself an array;
`malformed` covers `null`/`undefined` and every other shape. -/
inductive Resp where
  | envelope (success : Bool) (dataArr : Option (List Server)) (pg : Option PaginationInfo)
  | bare (arr : List Server)
  | malformed
deriving DecidableEq

/-- The properties of a thrown fetch error that the `catch` blocks inspect:
whether it is a `TypeError` and whether its message contains
`NetworkError` or `Failed to fetch` (source lines 149-152). -/
structure JSErr where
  isTypeError : Bool
  msgMatchesNetworkPattern : Bool
deriving DecidableEq

/-- The user-facing error message keys the controller can set
(`t('errors.*')` in the source). -/
inductive ErrMsg where
  | network          -- errors.network          (NetworkUnavailable)
  | serverConnection -- errors.serverConnection (BackendUnreachable)
  | serverFetch      -- errors.serverFetch      (TransientFetchFailure)
  | initialStartup   -- errors.initialStartup   (StartupFailure)
deriving DecidableEq

/-- Which polling interval is currently armed in `intervalRef`. -/
inductive TimerKind where
  | startup  -- setInterval(fetchInitialData, CONFIG.startup.pollingInterval)
  | normal   -- setInterval(fetchServers, CONFIG.normal.pollingInterval)
deriving DecidableEq

/-- `CONFIG` (source lines 9-19). -/
structure StartupConfig where
  maxAttempts : Nat
  pollingInterval : Nat

structure NormalConfig where
  pollingInterval : Nat

structure Config where
  startup : StartupConfig
  normal : NormalConfig

def CONFIG : Config := ⟨⟨60, 3000⟩, ⟨10000⟩⟩

/-- The controller's mutable state: every `useState` value, `useRef` cell and
the armed timer of `ServerProvider`, gathered into one record. -/
structure SyncState where
  servers : List Server              -- useState servers
  allServers : List Server           -- useState allServers
  error : Option ErrMsg              -- useState error
  refreshKey : Nat                   -- useState refreshKey (the generation)
  isInitialLoading : Bool            -- useState isInitialLoading (phase flag)
  fetchAttempts : Nat                -- useState fetchAttempts
  attemptsRef : Nat                  -- useRef attemptsRef
  pagination : Option PaginationInfo -- useState pagination
  lastFetchTime : Nat                -- useRef lastFetchTimeRef
  timer : Option TimerKind           -- useRef intervalRef
deriving DecidableEq

/-- The state at component mount, before any effect has run. -/
def initialState : SyncState :=
  { servers := []
    allServers := []
    error := none
    refreshKey := 0
    isInitialLoading := true
    fetchAttempts := 0
    attemptsRef := 0
    pagination := none
    lastFetchTime := 0
    timer := none }

/-- `clearTimer` (source lines 82-87). -/
def clearTimer (st : SyncState) : SyncState :=
  { st with timer := none }

/-- `Promise.all` over the two `apiGet` calls: the pair of values when both
resolve, otherwise the (first) rejection; the value of a resolved promise is
lost when the other one rejects. -/
def promiseAll (r1 r2 : Except JSErr Resp) : Except JSErr (Resp × Resp) :=
  match r1, r2 with
  | .ok a, .ok b => .ok (a, b)
  | .error e, _ => .error e
  | .ok _, .error e => .error e

/-- Handling of the paginated response (identical in `fetchServers`,
lines 114-130, and `fetchInitialData`, lines 220-237): a successful envelope
with an array `data` installs the list and the (possibly absent) pagination;
a bare array installs the list and clears pagination; any other shape empties
the list and clears pagination. -/
def applyPaginated (st : SyncState) (pd : Resp) : SyncState :=
  match pd with
  | .envelope true (some d) pg => { st with servers := d, pagination := pg }
  | .bare arr => { st with servers := arr, pagination := none }
  | _ => { st with servers := [], pagination := none }

/-- Handling of the unpaginated full-list response (identical in
`fetchServers`, lines 133-139, and `fetchInitialData`, lines 240-246). -/
def applyAll (st : SyncState) (ad : Resp) : SyncState :=
  match ad with
  | .envelope true (some d) _ => { st with allServers := d }
  | .bare arr => { st with allServers := arr }
  | _ => { st with allServers := [] }

/-- Whether a response shape is accepted by the source's shape-sniffing
(either branch that installs data, as opposed to the empty-list fallback). -/
def isValidShape : Resp → Bool
  | .envelope true (some _) _ => true
  | .bare _ => true
  | _ => false

/-- Error classification of the `catch` block of `fetchServers`
(source lines 147-156): offline wins, then a `TypeError` whose message
matches the network pattern, then the generic fetch error. -/
def classifyNormalError (online : Bool) (e : JSErr) : ErrMsg :=
  if !online then .network
  else if e.isTypeError && e.msgMatchesNetworkPattern then .serverConnection
  else .serverFetch

/-- Error classification of the `catch` block of `fetchInitialData`
(source lines 261-265): offline, otherwise the startup error; there is no
transport-pattern branch here. -/
def classifyInitialError (online : Bool) (_e : JSErr) : ErrMsg :=
  if !online then .network else .initialStartup

/-- `startNormalPolling` (source lines 90-169): clears any running timer,
runs `fetchServers` immediately unless `immediate` is false (the source
default for the option is `true`), and arms the normal interval. The boolean
output records whether an immediate fetch was issued; its effect on state is
applied separately by `fetchServers`. -/
def startNormalPolling (st : SyncState) (immediate : Bool) : SyncState × Bool :=
  let st := clearTimer st
  ({ st with timer := some .normal }, immediate)

/-- The body of `fetchServers` (source lines 96-158) applied to the settled
results of the two `apiGet` calls: on a doubly-resolved `Promise.all`, record
the fetch time, install both responses and reset the error; on a rejection,
classify and record the error and touch nothing else. -/
def fetchServers (st : SyncState) (online : Bool) (r1 r2 : Except JSErr Resp)
    (now : Nat) : SyncState :=
  match promiseAll r1 r2 with
  | .ok (pd, ad) =>
    let st := { st with lastFetchTime := now }
    let st := applyPaginated st pd
    let st := applyAll st ad
    { st with error := none }
  | .error e => { st with error := some (classifyNormalError online e) }

/-- Output of one settled `fetchInitialData` call: the new state, whether
`startNormalPolling` issued an immediate `fetchServers` as part of it, and
the boolean the function returns. -/
structure InitialStepOut where
  state : SyncState
  immediateNormalFetch : Bool
  result : Bool
deriving DecidableEq

/-- The body of `fetchInitialData` (source lines 202-279) applied to the
settled results of the two `apiGet` calls. On success: record the fetch
time, install both responses, leave the startup phase and start normal
polling with `immediate: false`. On a rejection: bump the attempt counters,
classify and record the error, and if the attempt bound is reached leave the
startup phase and start normal polling with the default `immediate = true`. -/
def fetchInitialData (st : SyncState) (online : Bool) (r1 r2 : Except JSErr Resp)
    (now : Nat) : InitialStepOut :=
  match promiseAll r1 r2 with
  | .ok (pd, ad) =>
    let st := { st with lastFetchTime := now }
    let st := applyPaginated st pd
    let st := applyAll st ad
    let st := { st with isInitialLoading := false }
    let (st, imm) := startNormalPolling st false
    ⟨st, imm, true⟩
  | .error e =>
    let a := st.attemptsRef + 1
    let st := { st with attemptsRef := a, fetchAttempts := a,
                        error := some (classifyInitialError online e) }
    if a ≥ CONFIG.startup.maxAttempts then
      let st := { st with isInitialLoading := false }
      let st := clearTimer st
      let (st, imm) := startNormalPolling st true
      ⟨st, imm, false⟩
    else
      ⟨st, false, false⟩

/-- `triggerRefresh` (source lines 304-317): clear the timer, reset the
startup counters when (and only when) currently in the startup phase, and
bump `refreshKey`. -/
def triggerRefresh (st : SyncState) : SyncState :=
  let st := clearTimer st
  let st :=
    if st.isInitialLoading then
      { st with isInitialLoading := true, attemptsRef := 0, fetchAttempts := 0 }
    else st
  { st with refreshKey := st.refreshKey + 1 }

/-- Output of one run of the polling `useEffect`: the new state and which
fetch (if any) it issued immediately, before any timer tick. -/
structure EffectOut where
  state : SyncState
  immediateInitialFetch : Bool
  immediateNormalFetch : Bool
deriving DecidableEq

/-- The polling `useEffect` body (source lines 188-301): skip everything when
unauthenticated; reset the attempt counters when `refreshKey > 0`; in the
startup phase clear the timer, issue an immediate `fetchInitialData` and arm
the startup interval; otherwise call `startNormalPolling()` whose `immediate`
option defaults to true. -/
def pollingEffect (st : SyncState) (authed : Bool) : EffectOut :=
  if !authed then ⟨st, false, false⟩
  else
    let st :=
      if st.refreshKey > 0 then { st with attemptsRef := 0, fetchAttempts := 0 }
      else st
    if st.isInitialLoading then
      let st := clearTimer st
      ⟨{ st with timer := some .startup }, true, false⟩
    else
      let (st, imm) := startNormalPolling st true
      ⟨st, false, imm⟩

/-- The unauthenticated branch of the auth-watch `useEffect`
(source lines 177-185): clear the timer, empty both server lists, leave the
loading phase and reset the error. `pagination` is not touched there. -/
def authEffectOff (st : SyncState) : SyncState :=
  let st := clearTimer st
  { st with servers := [], allServers := [], isInitialLoading := false, error := none }

/-- The authenticated branch of the auth-watch `useEffect`
(source lines 173-176): bump `refreshKey` to retrigger polling. -/
def authEffectOn (st : SyncState) : SyncState :=
  { st with refreshKey := st.refreshKey + 1 }

/-- `MIN_REFRESH_INTERVAL` (source line 79): 5000 ms when
`process.env.NODE_ENV === 'development'`, 3000 ms otherwise. -/
def minRefreshInterval (isDev : Bool) : Nat :=
  if isDev then 5000 else 3000

/-- `fetchServers` completion as it actually runs when its response arrives:
the closure captures the state setters and calls them unconditionally — the
source contains no comparison of an originating generation against the
current `refreshKey`, so the `originGen` argument is never consulted. -/
def completeNormalFetch (st : SyncState) (_originGen : Nat) (online : Bool)
    (r1 r2 : Except JSErr Resp) (now : Nat) : SyncState :=
  fetchServers st online r1 r2 now

/-- `refreshIfNeeded` (source lines 320-348): compare `now` minus the stored
last fetch time against `MIN_REFRESH_INTERVAL`; call `triggerRefresh` iff
the interval has passed. The boolean output records whether it refreshed. -/
def refreshIfNeeded (st : SyncState) (isDev : Bool) (now : Nat) : SyncState × Bool :=
  if now - st.lastFetchTime ≥ minRefreshInterval isDev then (triggerRefresh st, true)
  else (st, false)

/-! ## Session-storage number helpers (`src/frontend/src/utils/sessionStorage.ts`) -/

/-- A JavaScript number as the helpers observe it: a finite rational value,
`NaN`, or one of the infinities. -/
inductive JSNum where
  | finite (q : ℚ)
  | nan
  | posInf
  | negInf
deriving DecidableEq

/-- `Number.isFinite`. -/
def JSNum.isFinite : JSNum → Bool
  | .finite _ => true
  | _ => false

/-- The `parsed > 0` comparison: false for `NaN`, true for `+Infinity`. -/
def JSNum.gtZero : JSNum → Bool
  | .finite q => decide (0 < q)
  | .posInf => true
  | _ => false

/-- The ambient JavaScript number/string conversions: `String(v)` and
`Number(s)`. The helpers only rely on them through the round-trip law
`Number(String(v)) = v` for finite `v`, which theorems take as a
hypothesis. -/
structure JSNumberRuntime where
  numToString : JSNum → String
  parseNumber : String → JSNum

/-- The keyed session store: `window.sessionStorage`, absent keys as
`none`. -/
abbrev SessionStore := String → Option String

/-- `getSessionNumber` (sessionStorage.ts lines 1-13): fallback without a
window; fallback when the stored value is absent or the empty string (the
`!stored` falsy test); otherwise parse, and keep the parse only when it is
finite and positive. -/
def getSessionNumber (rt : JSNumberRuntime) (hasWindow : Bool)
    (store : SessionStore) (key : String) (fallback : JSNum) : JSNum :=
  if !hasWindow then fallback
  else
    match store key with
    | none => fallback
    | some s =>
      if s = "" then fallback
      else
        let parsed := rt.parseNumber s
        if parsed.isFinite && parsed.gtZero then parsed else fallback

/-- `setSessionNumber` (sessionStorage.ts lines 15-25): a no-op without a
window or for a non-finite value; otherwise store `String(value)` under the
key. -/
def setSessionNumber (rt : JSNumberRuntime) (hasWindow : Bool)
    (store : SessionStore) (key : String) (value : JSNum) : SessionStore :=
  if !hasWindow then store
  else if !value.isFinite then store
  else fun k => if k = key then some (rt.numToString value) else store k

/-! ## Concrete states used by the counterexamples and witnesses -/

/-- A state in the normal phase (startup finished), as after a successful
initial load. -/
def stNormal : SyncState :=
  { initialState with isInitialLoading := false, timer := some .normal }

/-- A concrete pagination object. -/
def pg1 : PaginationInfo :=
  { page := 1, limit := 5, total := 1, totalPages := 1
    hasNextPage := false, hasPrevPage := false }

/-- A normal-phase state currently showing pagination metadata. -/
def stWithPg : SyncState := { stNormal with pagination := some pg1 }

/-- A startup-phase state one failed attempt short of the attempt bound. -/
def stAtBound : SyncState :=
  { initialState with attemptsRef := 59, fetchAttempts := 59, timer := some .startup }

/-- A normal-phase state currently showing an error. -/
def stErr : SyncState := { stNormal with error := some .serverFetch }

/-- A concrete number runtime for witnesses: serializes the value 5 and
parses it back; everything else parses to `NaN`. -/
def rt0 : JSNumberRuntime :=
  { numToString := fun n =>
      match n with
      | .finite q => if q = 5 then "5" else "x"
      | _ => "x"
    parseNumber := fun s => if s = "5" then .finite 5 else .nan }

/-- A concrete session store holding a non-numeric string under every key. -/
def store0 : SessionStore := fun _ => some "abc"

/-! ## C1 — partial success of the dual fetch -/

/-- C1: the claim states that when exactly one of the two concurrent fetches
succeeds, the reconciliation counts as a full failure AND the succeeding
sub-result is still written to the sink. Counterexample: the full list fetch
resolves to `["s1"]` while the paginated fetch rejects; the reconciliation
fails (as claimed) but `allServers` stays empty — `Promise.all` rejects
before the resolved value can be destructured, so the succeeding half is
never written. -/
theorem C1_counterexample :
    (fetchInitialData initialState true (.error ⟨false, false⟩)
        (.ok (.bare ["s1"])) 100).result = false ∧
    (fetchInitialData initialState true (.error ⟨false, false⟩)
        (.ok (.bare ["s1"])) 100).state.allServers ≠ ["s1"] := by
  decide

/-- C1 (amended): when exactly one of the two concurrent fetches rejects, the
reconciliation counts as a full failure and NO sub-result is written to the
sink — `servers`, `allServers` and `pagination` are all left unchanged, in
both the startup-phase and normal-phase reconciliation paths. -/
theorem C1_amended_no_partial_write (st : SyncState) (online : Bool)
    (e : JSErr) (r : Resp) (now : Nat) :
    ((fetchInitialData st online (.error e) (.ok r) now).result = false ∧
      (fetchInitialData st online (.error e) (.ok r) now).state.servers = st.servers ∧
      (fetchInitialData st online (.error e) (.ok r) now).state.allServers = st.allServers ∧
      (fetchInitialData st online (.error e) (.ok r) now).state.pagination = st.pagination) ∧
    ((fetchInitialData st online (.ok r) (.error e) now).result = false ∧
      (fetchInitialData st online (.ok r) (.error e) now).state.servers = st.servers ∧
      (fetchInitialData st online (.ok r) (.error e) now).state.allServers = st.allServers ∧
      (fetchInitialData st online (.ok r) (.error e) now).state.pagination = st.pagination) ∧
    ((fetchServers st online (.error e) (.ok r) now).servers = st.servers ∧
      (fetchServers st online (.error e) (.ok r) now).allServers = st.allServers ∧
      (fetchServers st online (.error e) (.ok r) now).pagination = st.pagination ∧
      (fetchServers st online (.error e) (.ok r) now).error
        = some (classifyNormalError online e)) ∧
    ((fetchServers st online (.ok r) (.error e) now).servers = st.servers ∧
      (fetchServers st online (.ok r) (.error e) now).allServers = st.allServers ∧
      (fetchServers st online (.ok r) (.error e) now).pagination = st.pagination ∧
      (fetchServers st online (.ok r) (.error e) now).error
        = some (classifyNormalError online e)) := by
  unfold fetchInitialData fetchServers promiseAll
  refine ⟨?_, ?_, by simp, by simp⟩ <;>
    · simp only []
      split <;> simp [clearTimer, startNormalPolling]

/-! ## C2 — what `triggerRefresh` does in each phase -/

/-- C2: the claim states that from every phase (Startup or Normal),
`triggerRefresh()` resets the engine to a fresh Startup(0) episode.
Counterexample: from the normal phase the `isInitialLoading` guard inside
`triggerRefresh` is false, so the phase flag is never set back; after the
retriggered effect run the engine is still in the normal phase. -/
theorem C2_counterexample :
    stNormal.isInitialLoading = false ∧
    (triggerRefresh stNormal).isInitialLoading = false ∧
    (pollingEffect (triggerRefresh stNormal) true).state.isInitialLoading = false := by
  decide

/-- C2 (amended): `triggerRefresh()` always cancels the pending timer,
increments the generation counter, and (through the retriggered effect run)
resets the attempt count to 0 — but it preserves the current phase: a
Startup episode restarts as a fresh Startup(0), while from Normal the engine
stays in Normal. -/
theorem C2_amended_triggerRefresh (st : SyncState) :
    (triggerRefresh st).timer = none ∧
    (triggerRefresh st).refreshKey = st.refreshKey + 1 ∧
    (triggerRefresh st).isInitialLoading = st.isInitialLoading ∧
    (pollingEffect (triggerRefresh st) true).state.attemptsRef = 0 ∧
    (pollingEffect (triggerRefresh st) true).state.fetchAttempts = 0 ∧
    (pollingEffect (triggerRefresh st) true).state.isInitialLoading
      = st.isInitialLoading := by
  cases h : st.isInitialLoading <;>
    simp [triggerRefresh, pollingEffect, clearTimer, startNormalPolling, h]

/-! ## C3 — in-flight responses from a stale generation -/

/-- C3: the claim states that a reconciliation whose originating generation
no longer matches the current `refreshKey` never mutates the sink.
Counterexample: a fetch issued at generation 0 completes after
`triggerRefresh` bumped the generation to 1, and still installs its data:
the source's fetch continuation contains no generation comparison. -/
theorem C3_counterexample :
    (0 : Nat) ≠ (triggerRefresh stNormal).refreshKey ∧
    (completeNormalFetch (triggerRefresh stNormal) 0 true (.ok (.bare ["s1"]))
        (.ok (.bare ["s1"])) 50).servers ≠ (triggerRefresh stNormal).servers := by
  decide

/-- C3 (amended): a completing in-flight reconciliation is applied to the
sink identically whatever its originating generation — stale results are not
suppressed; the only cancellation `triggerRefresh` performs is clearing the
pending timer, which stops future ticks but not responses already in
flight. -/
theorem C3_amended_stale_result_applied (st : SyncState) (g1 g2 : Nat)
    (online : Bool) (a b : List Server) (now : Nat) :
    completeNormalFetch st g1 online (.ok (.bare a)) (.ok (.bare b)) now
      = completeNormalFetch st g2 online (.ok (.bare a)) (.ok (.bare b)) now ∧
    (completeNormalFetch st g1 online (.ok (.bare a)) (.ok (.bare b)) now).servers = a ∧
    (completeNormalFetch st g1 online (.ok (.bare a)) (.ok (.bare b)) now).allServers = b ∧
    (triggerRefresh st).timer = none := by
  refine ⟨rfl, rfl, rfl, ?_⟩
  cases h : st.isInitialLoading <;> simp [triggerRefresh, clearTimer, h]

/-! ## Helper lemmas -/

theorem applyPaginated_lastFetchTime (st : SyncState) (pd : Resp) :
    (applyPaginated st pd).lastFetchTime = st.lastFetchTime := by
  cases pd with
  | envelope s d p => cases s <;> cases d <;> rfl
  | bare arr => rfl
  | malformed => rfl

theorem applyAll_lastFetchTime (st : SyncState) (ad : Resp) :
    (applyAll st ad).lastFetchTime = st.lastFetchTime := by
  cases ad with
  | envelope s d p => cases s <;> cases d <;> rfl
  | bare arr => rfl
  | malformed => rfl

theorem fetchServers_ok_lastFetchTime (st : SyncState) (online : Bool)
    (a b : Resp) (now : Nat) :
    (fetchServers st online (.ok a) (.ok b) now).lastFetchTime = now := by
  simp [fetchServers, promiseAll, applyAll_lastFetchTime, applyPaginated_lastFetchTime]

theorem fetchInitialData_ok_lastFetchTime (st : SyncState) (online : Bool)
    (a b : Resp) (now : Nat) :
    (fetchInitialData st online (.ok a) (.ok b) now).state.lastFetchTime = now := by
  simp [fetchInitialData, promiseAll, startNormalPolling, clearTimer,
    applyAll_lastFetchTime, applyPaginated_lastFetchTime]

/-! ## C4 — immediate fetches at episode boundaries -/

/-- C4: the claim states that after a forced fallback from Startup to Normal
(attempt bound reached) no immediate reconciliation is issued.
Counterexample: the 60th consecutive startup failure switches to normal
polling via `startNormalPolling()` with no options, whose `immediate` option
defaults to true — so a normal fetch fires immediately, right after the last
startup failure. (It is the success path that passes `immediate: false`.) -/
theorem C4_counterexample :
    (fetchInitialData stAtBound true (.error ⟨false, false⟩)
        (.ok (.bare [])) 0).state.isInitialLoading = false ∧
    (fetchInitialData stAtBound true (.error ⟨false, false⟩)
        (.ok (.bare [])) 0).state.fetchAttempts = CONFIG.startup.maxAttempts ∧
    (fetchInitialData stAtBound true (.error ⟨false, false⟩)
        (.ok (.bare [])) 0).immediateNormalFetch = true := by
  decide

/-- C4 (amended): in every startup-phase state — in particular every fresh
Startup episode, whatever its attempt count — the polling effect issues its
first reconciliation immediately (no initial wait); whenever a failure
reaches the attempt bound, the forced fallback from Startup to Normal DOES
issue an immediate Normal reconciliation (the `immediate` option of
`startNormalPolling` defaults to true there); and from every state, a
successful initial reconciliation starts normal polling without an
immediate fetch (`immediate: false`). -/
theorem C4_amended_immediate_fetches (st : SyncState) (online : Bool)
    (e : JSErr) (r : Except JSErr Resp) (a b : Resp) (now : Nat) :
    (st.isInitialLoading = true →
        (pollingEffect st true).immediateInitialFetch = true) ∧
    (CONFIG.startup.maxAttempts ≤ st.attemptsRef + 1 →
        (fetchInitialData st online (.error e) r now).immediateNormalFetch = true) ∧
    (fetchInitialData st online (.ok a) (.ok b) now).immediateNormalFetch = false := by
  refine ⟨?_, ?_, rfl⟩
  · intro hstart
    by_cases hk : st.refreshKey > 0 <;>
      simp [pollingEffect, clearTimer, hstart, hk]
  · intro hbound
    simp [fetchInitialData, promiseAll, startNormalPolling, clearTimer,
      ge_iff_le, hbound]

/-- Witness for C4 (amended): the immediate first fetch at the mount state
(a fresh Startup episode with attempt count 0), the immediate fallback
fetch at the bound state, and the skipped immediate fetch after a
successful initial reconciliation from the mount state. -/
theorem C4_amended_immediate_fetches_witness :
    (pollingEffect initialState true).immediateInitialFetch = true ∧
    (fetchInitialData stAtBound true (.error ⟨false, false⟩)
        (.ok .malformed) 0).immediateNormalFetch = true ∧
    (fetchInitialData initialState true (.ok .malformed)
        (.ok .malformed) 0).immediateNormalFetch = false :=
  ⟨(C4_amended_immediate_fetches initialState true ⟨false, false⟩ (.ok .malformed)
      .malformed .malformed 0).1 rfl,
   (C4_amended_immediate_fetches stAtBound true ⟨false, false⟩ (.ok .malformed)
      .malformed .malformed 0).2.1 (by decide),
   (C4_amended_immediate_fetches initialState true ⟨false, false⟩ (.ok .malformed)
      .malformed .malformed 0).2.2⟩

/-! ## C5 — session gate turning off -/

/-- C5: the claim states that gate-off clears `servers`, `allServers`,
`pagination` and `error`. Counterexample: the unauthenticated branch of the
auth-watch effect never calls `setPagination`, so a state showing pagination
metadata keeps it after gate-off. -/
theorem C5_counterexample :
    (authEffectOff stWithPg).pagination = some pg1 ∧
    (authEffectOff stWithPg).pagination ≠ none := by
  decide

/-- C5 (amended): gate-off synchronously cancels the pending timer and
clears `servers`, `allServers` and `error`, and the polling effect issues no
fetch and arms no timer while the gate is off — but `pagination` is left
unchanged, not cleared. -/
theorem C5_amended_gate_off (st : SyncState) :
    (authEffectOff st).timer = none ∧
    (authEffectOff st).servers = [] ∧
    (authEffectOff st).allServers = [] ∧
    (authEffectOff st).error = none ∧
    (authEffectOff st).pagination = st.pagination ∧
    pollingEffect st false = ⟨st, false, false⟩ := by
  simp [authEffectOff, clearTimer, pollingEffect]

/-! ## C6 — debounced refresh -/

/-- C6 (confirmed): `refreshIfNeeded()` calls `triggerRefresh()` iff
`now - lastFetchTime ≥ MIN_REFRESH_INTERVAL`, where the interval is 5000 ms
in development deployments and 3000 ms otherwise; a call inside the window
is a no-op. In the two-call scenario: a first call outside the window
triggers, the triggered reconciliation resolves at time `tc` (recording the
new timestamp through either the normal-phase or the startup-phase
completion), and a second call within the window of `tc` is a no-op — so
the two calls produce exactly one reconciliation. -/
theorem C6_refreshIfNeeded_debounce (st : SyncState) (isDev : Bool)
    (t1 tc t2 : Nat) (online : Bool) (a b : Resp)
    (h1 : minRefreshInterval isDev ≤ t1 - st.lastFetchTime)
    (h2 : t2 - tc < minRefreshInterval isDev) :
    minRefreshInterval true = 5000 ∧
    minRefreshInterval false = 3000 ∧
    (∀ (s : SyncState) (now : Nat),
        (refreshIfNeeded s isDev now).2 = true
          ↔ minRefreshInterval isDev ≤ now - s.lastFetchTime) ∧
    (∀ (s : SyncState) (now : Nat),
        (refreshIfNeeded s isDev now).2 = false → (refreshIfNeeded s isDev now).1 = s) ∧
    (refreshIfNeeded st isDev t1).2 = true ∧
    (refreshIfNeeded (fetchServers
        (pollingEffect (refreshIfNeeded st isDev t1).1 true).state
        online (.ok a) (.ok b) tc) isDev t2).2 = false ∧
    (refreshIfNeeded (fetchInitialData
        (pollingEffect (refreshIfNeeded st isDev t1).1 true).state
        online (.ok a) (.ok b) tc).state isDev t2).2 = false := by
  refine ⟨rfl, rfl, ?_, ?_, ?_, ?_, ?_⟩
  · intro s now
    unfold refreshIfNeeded
    split <;> simp_all [ge_iff_le]
  · intro s now
    unfold refreshIfNeeded
    split <;> simp_all
  · unfold refreshIfNeeded
    rw [if_pos h1]
  · unfold refreshIfNeeded
    rw [if_neg]
    rw [fetchServers_ok_lastFetchTime]
    simp [ge_iff_le]
    omega
  · unfold refreshIfNeeded
    rw [if_neg]
    rw [fetchInitialData_ok_lastFetchTime]
    simp [ge_iff_le]
    omega

/-- Witness for C6 at concrete times: first call at 3000 triggers, the
reconciliation resolves at 4000, the second call at 5000 is a no-op. -/
theorem C6_refreshIfNeeded_debounce_witness :
    (refreshIfNeeded initialState false 3000).2 = true ∧
    (refreshIfNeeded (fetchServers
        (pollingEffect (refreshIfNeeded initialState false 3000).1 true).state
        true (.ok (.bare ["s1"])) (.ok (.bare ["s1"])) 4000) false 5000).2 = false :=
  ⟨(C6_refreshIfNeeded_debounce initialState false 3000 4000 5000 true
      (.bare ["s1"]) (.bare ["s1"]) (by decide) (by decide)).2.2.2.2.1,
   (C6_refreshIfNeeded_debounce initialState false 3000 4000 5000 true
      (.bare ["s1"]) (.bare ["s1"]) (by decide) (by decide)).2.2.2.2.2.1⟩

/-! ## More helper lemmas (response-shape handling) -/

theorem applyPaginated_invalid (st : SyncState) (pd : Resp)
    (h : isValidShape pd = false) :
    applyPaginated st pd = { st with servers := [], pagination := none } := by
  cases pd with
  | envelope s d p => cases s <;> cases d <;> simp_all [isValidShape, applyPaginated]
  | bare arr => simp [isValidShape] at h
  | malformed => rfl

theorem applyAll_invalid (st : SyncState) (ad : Resp)
    (h : isValidShape ad = false) :
    (applyAll st ad).allServers = [] := by
  cases ad with
  | envelope s d p => cases s <;> cases d <;> simp_all [isValidShape, applyAll]
  | bare arr => simp [isValidShape] at h
  | malformed => rfl

theorem applyAll_servers (st : SyncState) (ad : Resp) :
    (applyAll st ad).servers = st.servers := by
  cases ad with
  | envelope s d p => cases s <;> cases d <;> rfl
  | bare arr => rfl
  | malformed => rfl

theorem applyAll_pagination (st : SyncState) (ad : Resp) :
    (applyAll st ad).pagination = st.pagination := by
  cases ad with
  | envelope s d p => cases s <;> cases d <;> rfl
  | bare arr => rfl
  | malformed => rfl

theorem applyAll_fetchAttempts (st : SyncState) (ad : Resp) :
    (applyAll st ad).fetchAttempts = st.fetchAttempts := by
  cases ad with
  | envelope s d p => cases s <;> cases d <;> rfl
  | bare arr => rfl
  | malformed => rfl

/-! ## C7 — when the debounce timestamp is recorded -/

/-- C7: the claim states that the debounce timestamp is left unchanged by
every reconciliation that counts as a failure, including one whose response
has an invalid shape. Counterexample: `lastFetchTimeRef.current = Date.now()`
runs as soon as `Promise.all` resolves, before any shape validation, so a
malformed response still records the timestamp — in both phases. -/
theorem C7_counterexample :
    initialState.lastFetchTime = 0 ∧
    isValidShape .malformed = false ∧
    (fetchServers initialState true (.ok .malformed) (.ok .malformed) 777).lastFetchTime
      = 777 ∧
    (fetchInitialData initialState true (.ok .malformed) (.ok .malformed) 777).state.lastFetchTime
      = 777 := by
  decide

/-- C7 (amended): the debounce timestamp is recorded whenever both fetches
resolve — whatever the response shapes, valid or not — and left unchanged
exactly when the dual fetch rejects (a thrown sub-fetch). -/
theorem C7_amended_lastFetchTime (st : SyncState) (online : Bool) (e : JSErr)
    (r1 r2 : Except JSErr Resp) (a b : Resp) (now : Nat)
    (h : promiseAll r1 r2 = .error e) :
    (fetchServers st online (.ok a) (.ok b) now).lastFetchTime = now ∧
    (fetchInitialData st online (.ok a) (.ok b) now).state.lastFetchTime = now ∧
    (fetchServers st online r1 r2 now).lastFetchTime = st.lastFetchTime ∧
    (fetchInitialData st online r1 r2 now).state.lastFetchTime = st.lastFetchTime := by
  refine ⟨fetchServers_ok_lastFetchTime st online a b now,
    fetchInitialData_ok_lastFetchTime st online a b now, ?_, ?_⟩
  · unfold fetchServers
    rw [h]
  · unfold fetchInitialData
    rw [h]
    dsimp only
    split <;> rfl

/-- Witness for C7 (amended): one sub-fetch rejected while the other
resolved. -/
theorem C7_amended_lastFetchTime_witness :
    (fetchServers stNormal true (.ok .malformed) (.ok .malformed) 42).lastFetchTime = 42 ∧
    (fetchInitialData stNormal true (.ok .malformed) (.ok .malformed) 42).state.lastFetchTime = 42 ∧
    (fetchServers stNormal true (.error ⟨false, false⟩) (.ok .malformed) 42).lastFetchTime
      = stNormal.lastFetchTime ∧
    (fetchInitialData stNormal true (.error ⟨false, false⟩) (.ok .malformed) 42).state.lastFetchTime
      = stNormal.lastFetchTime :=
  C7_amended_lastFetchTime stNormal true ⟨false, false⟩ (.error ⟨false, false⟩)
    (.ok .malformed) .malformed .malformed 42 rfl

/-! ## C8 — invalid response shapes -/

/-- C8: the claim states that an invalid-shape response makes the
reconciliation count as a failure (besides emptying the list and clearing
pagination). Counterexample: a malformed response takes the resolved path —
`fetchInitialData` returns true, does not bump the attempt counters, exits
the startup phase exactly as on success, records no error, and the
normal-phase handler even resets a pre-existing error to null. -/
theorem C8_counterexample :
    isValidShape .malformed = false ∧
    (fetchInitialData initialState true (.ok .malformed) (.ok .malformed) 9).result = true ∧
    (fetchInitialData initialState true (.ok .malformed) (.ok .malformed) 9).state.fetchAttempts
      = 0 ∧
    (fetchInitialData initialState true (.ok .malformed) (.ok .malformed) 9).state.isInitialLoading
      = false ∧
    (fetchInitialData initialState true (.ok .malformed) (.ok .malformed) 9).state.error
      = none ∧
    stErr.error = some .serverFetch ∧
    (fetchServers stErr true (.ok .malformed) (.ok .malformed) 9).error = none := by
  decide

/-- C8 (amended): a response whose shape is neither a successful envelope
with array data nor a bare array empties the observable server list and
clears pagination (and, in the full-list position, empties `allServers`) —
but the reconciliation settles as a success: the error is reset in the
normal path, and the startup path returns true, keeps the attempt counters
untouched and completes the startup phase. -/
theorem C8_amended_invalid_shape (st : SyncState) (online : Bool)
    (pd ad : Resp) (now : Nat) (hpd : isValidShape pd = false) :
    (fetchServers st online (.ok pd) (.ok ad) now).servers = [] ∧
    (fetchServers st online (.ok pd) (.ok ad) now).pagination = none ∧
    (fetchServers st online (.ok pd) (.ok ad) now).error = none ∧
    (fetchServers st online (.ok ad) (.ok pd) now).allServers = [] ∧
    (fetchInitialData st online (.ok pd) (.ok ad) now).state.servers = [] ∧
    (fetchInitialData st online (.ok pd) (.ok ad) now).state.pagination = none ∧
    (fetchInitialData st online (.ok pd) (.ok ad) now).result = true ∧
    (fetchInitialData st online (.ok pd) (.ok ad) now).state.fetchAttempts
      = st.fetchAttempts ∧
    (fetchInitialData st online (.ok pd) (.ok ad) now).state.isInitialLoading = false := by
  simp [fetchServers, fetchInitialData, promiseAll, startNormalPolling, clearTimer,
    applyPaginated_invalid _ _ hpd, applyAll_invalid _ _ hpd,
    applyAll_servers, applyAll_pagination, applyAll_fetchAttempts]

/-- Witness for C8 (amended) at a malformed response. -/
theorem C8_amended_invalid_shape_witness :
    (fetchServers stWithPg true (.ok .malformed) (.ok (.bare ["s1"])) 9).servers = [] ∧
    (fetchServers stWithPg true (.ok .malformed) (.ok (.bare ["s1"])) 9).pagination = none ∧
    (fetchServers stWithPg true (.ok .malformed) (.ok (.bare ["s1"])) 9).error = none ∧
    (fetchServers stWithPg true (.ok (.bare ["s1"])) (.ok .malformed) 9).allServers = [] ∧
    (fetchInitialData stWithPg true (.ok .malformed) (.ok (.bare ["s1"])) 9).state.servers = [] ∧
    (fetchInitialData stWithPg true (.ok .malformed) (.ok (.bare ["s1"])) 9).state.pagination
      = none ∧
    (fetchInitialData stWithPg true (.ok .malformed) (.ok (.bare ["s1"])) 9).result = true ∧
    (fetchInitialData stWithPg true (.ok .malformed) (.ok (.bare ["s1"])) 9).state.fetchAttempts
      = stWithPg.fetchAttempts ∧
    (fetchInitialData stWithPg true (.ok .malformed) (.ok (.bare ["s1"])) 9).state.isInitialLoading
      = false :=
  C8_amended_invalid_shape stWithPg true .malformed (.bare ["s1"]) 9 rfl

/-! ## C9 — error classification by phase -/

/-- C9: the claim states that in both phases a transport error matching the
failed-to-fetch pattern yields the BackendUnreachable message.
Counterexample: the startup-phase catch block only distinguishes
offline from everything else, so an online `TypeError` matching the network
pattern is recorded as the StartupFailure message, not BackendUnreachable. -/
theorem C9_counterexample :
    (fetchInitialData initialState true (.error ⟨true, true⟩)
        (.ok (.bare [])) 0).state.error = some .initialStartup ∧
    some ErrMsg.initialStartup ≠ some ErrMsg.serverConnection := by
  decide

/-- C9 (amended): the normal-phase classifier follows the claimed priority
order (offline → NetworkUnavailable, matching transport error →
BackendUnreachable, otherwise TransientFetchFailure), but the startup-phase
classifier checks only connectivity: offline → NetworkUnavailable, anything
else → StartupFailure, with no transport-pattern branch. -/
theorem C9_amended_classification (e : JSErr) :
    classifyNormalError false e = .network ∧
    classifyInitialError false e = .network ∧
    (e.isTypeError = true → e.msgMatchesNetworkPattern = true →
        classifyNormalError true e = .serverConnection) ∧
    ((e.isTypeError && e.msgMatchesNetworkPattern) = false →
        classifyNormalError true e = .serverFetch) ∧
    classifyInitialError true e = .initialStartup := by
  refine ⟨rfl, rfl, ?_, ?_, rfl⟩
  · intro h1 h2
    simp [classifyNormalError, h1, h2]
  · intro h
    simp [classifyNormalError, h]

/-- Witness for C9 (amended) at concrete error values. -/
theorem C9_amended_classification_witness :
    classifyNormalError true ⟨true, true⟩ = .serverConnection ∧
    classifyNormalError true ⟨false, false⟩ = .serverFetch ∧
    classifyInitialError true ⟨true, true⟩ = .initialStartup :=
  ⟨(C9_amended_classification ⟨true, true⟩).2.2.1 rfl rfl,
   (C9_amended_classification ⟨false, false⟩).2.2.2.1 rfl,
   (C9_amended_classification ⟨true, true⟩).2.2.2.2⟩

/-! ## C10 — session-number round-trip -/

/-- C10 (confirmed): with a window present, storing a finite positive number
under a key and reading it back through the keyed session store returns that
number (given JavaScript's round-trip law `Number(String(v)) = v` and that
`String(v)` is non-empty), and reading a key whose stored string does not
parse to a finite positive number returns the supplied fallback. -/
theorem C10_sessionNumber_roundtrip (rt : JSNumberRuntime) (store : SessionStore)
    (key : String) (q : ℚ) (fallback : JSNum) (s : String)
    (hq : 0 < q)
    (hrt : rt.parseNumber (rt.numToString (.finite q)) = .finite q)
    (hne : rt.numToString (.finite q) ≠ "")
    (hs : store key = some s)
    (hbad : ¬((rt.parseNumber s).isFinite = true ∧ (rt.parseNumber s).gtZero = true)) :
    getSessionNumber rt true (setSessionNumber rt true store key (.finite q)) key fallback
      = .finite q ∧
    getSessionNumber rt true store key fallback = fallback := by
  constructor
  · simp [getSessionNumber, setSessionNumber, JSNum.isFinite, JSNum.gtZero,
      hrt, hne, hq]
  · by_cases hse : s = ""
    · simp [getSessionNumber, hs, hse]
    · cases hf : (rt.parseNumber s).isFinite with
      | false => simp [getSessionNumber, hs, hse, hf]
      | true =>
        cases hg : (rt.parseNumber s).gtZero with
        | false => simp [getSessionNumber, hs, hse, hf, hg]
        | true => exact absurd ⟨hf, hg⟩ hbad

/-- Witness for C10 at the concrete runtime `rt0` and store `store0`. -/
theorem C10_sessionNumber_roundtrip_witness :
    getSessionNumber rt0 true
        (setSessionNumber rt0 true store0 "servers.serversPerPage" (.finite 5))
        "servers.serversPerPage" (.finite 7) = .finite 5 ∧
    getSessionNumber rt0 true store0 "servers.serversPerPage" (.finite 7) = .finite 7 :=
  C10_sessionNumber_roundtrip rt0 store0 "servers.serversPerPage" 5 (.finite 7) "abc"
    (by norm_num) (by decide) (by decide) rfl (by decide)

end MCPHub
